import Mathlib

/-!
Shallow embedding of `strict-validate-converters.js` from the
cooking-converter-tool repository, together with theorems settling the
frozen claims about its converter-JSON validator.

JSON/JS values are modelled by the inductive type `JSVal`.  JS numbers are
modelled as exact decimal values (an integer mantissa scaled by a power of
ten), which is faithful for every numeric literal the validator's contracts
mention; `undefined` is modelled as `Option.none` at property-access
results, as JSON itself has no undefined value.  Code paths that throw a
`TypeError` in JS are modelled with `Except String`.
-/

/-- A JS number as an exact decimal: the value is `mant / 10 ^ exp`. -/
structure JSNum where
  mant : Int
  exp : Nat
deriving DecidableEq

/-- Numeric (strict `===`) equality of two JS numbers. -/
def JSNum.numEq (a b : JSNum) : Bool :=
  a.mant * (10 : Int) ^ b.exp = b.mant * (10 : Int) ^ a.exp

/-- A JSON/JS value. -/
inductive JSVal where
  | null
  | bool (b : Bool)
  | num (n : JSNum)
  | str (s : String)
  | arr (xs : List JSVal)
  | obj (fs : List (String × JSVal))

def JSVal.isNull : JSVal → Bool
  | .null => true
  | _ => false

/-- JS truthiness of a value. -/
def jsTruthyV : JSVal → Bool
  | .null => false
  | .bool b => b
  | .num n => !(n.mant = 0 : Bool)
  | .str s => !(s = "" : Bool)
  | .arr _ => true
  | .obj _ => true

/-- JS truthiness of a possibly-`undefined` value. -/
def jsTruthy : Option JSVal → Bool
  | none => false
  | some v => jsTruthyV v

/-- `typeof v === "object"` (true for `null`, arrays and plain objects). -/
def jsIsObjectType : JSVal → Bool
  | .null => true
  | .arr _ => true
  | .obj _ => true
  | _ => false

/-- `Array.isArray` on a value. -/
def jsIsArrayV : JSVal → Bool
  | .arr _ => true
  | _ => false

/-- `Array.isArray` on a possibly-`undefined` value. -/
def jsIsArray : Option JSVal → Bool
  | some (.arr _) => true
  | _ => false

/-- `typeof` as a string, for error messages such as `(got number)`. -/
def jsTypeof : JSVal → String
  | .null => "object"
  | .bool _ => "boolean"
  | .num _ => "number"
  | .str _ => "string"
  | .arr _ => "object"
  | .obj _ => "object"

/-- First-wins lookup in an object field list (field lists are assumed to
have unique keys, as produced by `JSON.parse`). -/
def jsLookup : List (String × JSVal) → String → Option JSVal
  | [], _ => none
  | (k2, v) :: fs, k => if k2 = k then some v else jsLookup fs k

/-- One decimal digit as a string. -/
def digitStr (d : Nat) : String :=
  match d with
  | 0 => "0" | 1 => "1" | 2 => "2" | 3 => "3" | 4 => "4"
  | 5 => "5" | 6 => "6" | 7 => "7" | 8 => "8" | _ => "9"

def natToStrAux : Nat → Nat → String
  | 0, _ => ""
  | fuel + 1, n =>
    if n < 10 then digitStr n else natToStrAux fuel (n / 10) ++ digitStr (n % 10)

/-- Decimal rendering of a natural number (kernel-reducible). -/
def natToStr (n : Nat) : String := natToStrAux (n + 1) n

/-- Strip common factors of ten out of `(mantissa, exponent)`. -/
def stripTenAux : Nat → Nat → Nat × Nat
  | a, 0 => (a, 0)
  | a, e + 1 => if a % 10 = 0 then stripTenAux (a / 10) e else (a, e + 1)

/-- A string of `n` zero characters. -/
def zeroPad : Nat → String
  | 0 => ""
  | n + 1 => "0" ++ zeroPad n

/-- JS `String(x)` for a decimal number (e.g. `0.999999`, `2`, `-1.5`). -/
def jsNumToString (x : JSNum) : String :=
  let sign := if x.mant < 0 then "-" else ""
  let p := stripTenAux x.mant.natAbs x.exp
  if p.2 = 0 then sign ++ natToStr p.1
  else
    let d := 10 ^ p.2
    let frac := natToStr (p.1 % d)
    sign ++ natToStr (p.1 / d) ++ "." ++ zeroPad (p.2 - frac.length) ++ frac

/-- Parse a canonical array-index string (`"0"`, `"12"`, ...). -/
def parseNatKey (s : String) : Option Nat :=
  match s.data with
  | [] => none
  | [c] => if c.isDigit then some (c.toNat - 48) else none
  | c :: cs =>
    if c.isDigit && !(c.toNat = 48 : Bool) && cs.all (fun d => d.isDigit) then
      some ((c :: cs).foldl (fun a d => a * 10 + (d.toNat - 48)) 0)
    else none

mutual

/-- JS `String(v)`. -/
def jsValToString : JSVal → String
  | .null => "null"
  | .bool true => "true"
  | .bool false => "false"
  | .num n => jsNumToString n
  | .str s => s
  | .arr xs => jsArrJoin xs
  | .obj _ => "[object Object]"

/-- `Array.prototype.toString` = `join(",")`; `null` elements render
empty. -/
def jsArrJoin : List JSVal → String
  | [] => ""
  | v :: vs =>
    (match v with
     | .null => ""
     | .bool b => jsValToString (.bool b)
     | .num n => jsValToString (.num n)
     | .str s => jsValToString (.str s)
     | .arr ys => jsValToString (.arr ys)
     | .obj gs => jsValToString (.obj gs)) ++
    (if vs.isEmpty then "" else ",") ++ jsArrJoin vs

end

/-- Property access `v[k]` on a non-null value (result `none` = `undefined`). -/
def jsIndex (v : JSVal) (k : String) : Option JSVal :=
  match v with
  | .obj fs => jsLookup fs k
  | .arr xs =>
    if k = "length" then some (.num ⟨(xs.length : Int), 0⟩)
    else match parseNatKey k with
      | some i => xs.get? i
      | none => none
  | .str s =>
    if k = "length" then some (.num ⟨(s.length : Int), 0⟩)
    else match parseNatKey k with
      | some i => (s.data.get? i).map (fun c => .str ⟨[c]⟩)
      | none => none
  | _ => none

/-- Property access `v.k` (alias used for dot access in the source). -/
def jsGet (v : JSVal) (k : String) : Option JSVal := jsIndex v k

/-- Property access on a possibly-`undefined` base that the source has
already guarded to be defined and non-null. -/
def jsIndexO (v : Option JSVal) (k : String) : Option JSVal :=
  match v with
  | none => none
  | some w => jsIndex w k

/-- `Object.entries` (array entries are index/value pairs). -/
def jsEntries : JSVal → List (String × JSVal)
  | .obj fs => fs
  | .arr xs => xs.enum.map (fun p => (natToStr p.1, p.2))
  | _ => []

/-- `Object.keys`. -/
def jsKeys (v : JSVal) : List String := (jsEntries v).map (fun p => p.1)

/-- JS `ToPropertyKey` for computed member access `o[x]`. -/
def jsKey (v : JSVal) : String := jsValToString v

/-- Template-literal rendering of a possibly-`undefined` value. -/
def jsOptToString : Option JSVal → String
  | none => "undefined"
  | some v => jsValToString v

/-- Number of maximal non-whitespace runs: the result of
`str.trim().split(/\s+/).filter(w => w.length > 0).length`. -/
def tokensAux : List Char → Bool → Nat
  | [], _ => 0
  | c :: cs, inTok =>
    if c.isWhitespace then tokensAux cs false
    else (if inTok then 0 else 1) + tokensAux cs true

def countTokens (s : String) : Nat := tokensAux s.data false

/-- `countWords` (source lines 717-720): zero unless the value is a string. -/
def countWords : JSVal → Nat
  | .str s => countTokens s
  | _ => 0

def countWordsO : Option JSVal → Nat
  | none => 0
  | some v => countWords v

/-- Bool substring test (used to state what an error message names). -/
def strContains (hay pat : String) : Bool :=
  (List.range (hay.data.length + 1)).any (fun i => pat.data.isPrefixOf (hay.data.drop i))

/-!
## The section schema table (`SECTION_STRUCTURES`, source lines 6-449)

Each schema descriptor combines declarative key lists, array-field
descriptors (`minItems` plus an optional `itemStructure`), and inline
callbacks.  The three section-level callbacks (`comparisonTable`, `tips`,
`related`) and the `quickReference` per-item callback are the only
callbacks the validator ever invokes; they are modelled as named tags
dispatched by `runSectionCallback` / `quickRefItemValidate`.  The
`columns.validate` and `rows.itemStructure.validate` closures of
`comparisonTable` are never called by any validation path (lines 902-916
check only array-ness and `minItems`), so they carry no observable
behaviour.
-/

/-- An `itemStructure` descriptor of an array field. -/
structure ItemStructureSpec where
  itype : Option String := none
  requiredKeys : List String := []
  optionalKeys : List String := []
  hasValidate : Bool := false
deriving DecidableEq

/-- An array-field descriptor (`items`, `rows`, `steps`, ...). -/
structure ArrayFieldSpec where
  minItems : Option Nat := none
  itemStructure : Option ItemStructureSpec := none
deriving DecidableEq

/-- Tag naming one of the three section-level `validate` callbacks. -/
inductive SectionCallback where
  | comparisonTableCB
  | tipsCB
  | relatedCB
deriving DecidableEq

/-- A section schema descriptor. -/
structure SectionStructure where
  requiredKeys : List String := []
  optionalKeys : List String := []
  exactKeys : List String := []
  items : Option ArrayFieldSpec := none
  tips : Option ArrayFieldSpec := none
  links : Option ArrayFieldSpec := none
  mistakes : Option ArrayFieldSpec := none
  tools : Option ArrayFieldSpec := none
  concepts : Option ArrayFieldSpec := none
  regions : Option ArrayFieldSpec := none
  examples : Option ArrayFieldSpec := none
  steps : Option ArrayFieldSpec := none
  columns : Option ArrayFieldSpec := none
  rows : Option ArrayFieldSpec := none
  sectionValidate : Option SectionCallback := none
deriving DecidableEq

/-- The schema table, keyed by section name (source lines 6-449). -/
def SECTION_STRUCTURES : String → Option SectionStructure := fun name =>
  match name with
  | "hero" => some
      { requiredKeys := ["title"]
        optionalKeys := ["subtitle", "intro"]
        exactKeys := ["title", "subtitle", "intro"] }
  | "quickReference" => some
      { requiredKeys := ["title", "items"]
        optionalKeys := ["description"]
        exactKeys := ["title", "description", "items"]
        items := some
          { minItems := some 3
            itemStructure := some
              { requiredKeys := ["ingredient"]
                optionalKeys := ["cup", "grams", "icon", "tip", "tablespoon", "teaspoon",
                                 "celsius", "fahrenheit", "gasMark", "ml", "ounce", "pound"]
                hasValidate := true } } }
  | "comparisonTable" => some
      { requiredKeys := ["title"]
        optionalKeys := ["description", "columns", "rows"]
        exactKeys := ["title", "description", "columns", "rows"]
        columns := some { minItems := some 2 }
        rows := some
          { minItems := some 8
            itemStructure := some { itype := some "object", hasValidate := true } }
        sectionValidate := some .comparisonTableCB }
  | "visualChart" => some
      { requiredKeys := ["title"]
        optionalKeys := ["description", "items"]
        exactKeys := ["title", "description", "items"]
        items := some
          { minItems := some 2
            itemStructure := some
              { requiredKeys := ["name"]
                optionalKeys := ["weight", "comparison", "visual", "color"] } } }
  | "stepByStep" => some
      { requiredKeys := ["title", "steps"]
        optionalKeys := ["description"]
        exactKeys := ["title", "description", "steps"]
        steps := some
          { minItems := some 1
            itemStructure := some
              { requiredKeys := ["number", "title", "content"]
                optionalKeys := ["tip", "warning", "note"] } } }
  | "commonMistakes" => some
      { requiredKeys := ["title"]
        optionalKeys := ["description", "mistakes", "items"]
        exactKeys := ["title", "description", "mistakes", "items"]
        mistakes := some
          { minItems := some 1
            itemStructure := some
              { requiredKeys := ["mistake", "consequence", "solution"]
                optionalKeys := ["severity", "icon"] } }
        items := some
          { minItems := some 1
            itemStructure := some { itype := some "string" } } }
  | "equipmentGuide" => some
      { requiredKeys := ["title", "tools"]
        optionalKeys := ["description"]
        exactKeys := ["title", "description", "tools"]
        tools := some
          { minItems := some 1
            itemStructure := some
              { requiredKeys := ["name", "importance"]
                optionalKeys := ["icon", "features", "priceRange", "recommendedBrands"] } } }
  | "scientificBackground" => some
      { requiredKeys := ["title"]
        optionalKeys := ["description", "concepts"]
        exactKeys := ["title", "description", "concepts"]
        concepts := some
          { minItems := some 1
            itemStructure := some
              { requiredKeys := ["concept"]
                optionalKeys := ["explanation", "examples", "impact"] } } }
  | "regionalVariations" => some
      { requiredKeys := ["title"]
        optionalKeys := ["description", "regions"]
        exactKeys := ["title", "description", "regions"]
        regions := some
          { minItems := some 1
            itemStructure := some
              { requiredKeys := ["region"]
                optionalKeys := ["cupSize", "commonUnits", "system", "note"] } } }
  | "recipeExamples" => some
      { requiredKeys := ["title", "examples"]
        optionalKeys := ["description"]
        exactKeys := ["title", "description", "examples"]
        examples := some
          { minItems := some 1
            itemStructure := some
              { requiredKeys := ["recipe"]
                optionalKeys := ["original", "converted", "serves", "tip"] } } }
  | "tips" => some
      { requiredKeys := ["title"]
        optionalKeys := ["description", "tips", "items"]
        exactKeys := ["title", "description", "tips", "items"]
        tips := some
          { minItems := some 1
            itemStructure := some { itype := some "string" } }
        items := some
          { minItems := some 1
            itemStructure := some { itype := some "string" } }
        sectionValidate := some .tipsCB }
  | "faq" => some
      { requiredKeys := ["title", "items"]
        optionalKeys := ["description"]
        exactKeys := ["title", "description", "items"]
        items := some
          { minItems := some 1
            itemStructure := some { requiredKeys := ["question", "answer"] } } }
  | "faqs" => some
      { requiredKeys := ["title", "items"]
        optionalKeys := ["description"]
        exactKeys := ["title", "description", "items"]
        items := some
          { minItems := some 1
            itemStructure := some { requiredKeys := ["question", "answer"] } } }
  | "related" => some
      { requiredKeys := ["title"]
        optionalKeys := ["description", "links", "items"]
        exactKeys := ["title", "description", "links", "items"]
        links := some
          { minItems := some 1
            itemStructure := some { itype := some "string" } }
        items := some
          { minItems := some 1
            itemStructure := some { itype := some "string" } }
        sectionValidate := some .relatedCB }
  | _ => none

/-- The three section-level `validate` callbacks (source lines 105-116,
339-346, 422-429), given the section data and the path string the caller
passes as second argument. -/
def runSectionCallback : SectionCallback → JSVal → String → List String
  | .comparisonTableCB, sectionData, sectionName =>
    let hasColumns := jsTruthy (jsGet sectionData "columns") && jsIsArray (jsGet sectionData "columns")
    let hasRows := jsTruthy (jsGet sectionData "rows") && jsIsArray (jsGet sectionData "rows")
    (if hasColumns && !hasRows then
      ["\"" ++ sectionName ++ "\" has columns but no rows"] else []) ++
    (if hasRows && !hasColumns then
      ["\"" ++ sectionName ++ "\" has rows but no columns"] else [])
  | .tipsCB, sectionData, sectionName =>
    let hasTips := jsTruthy (jsGet sectionData "tips") && jsIsArray (jsGet sectionData "tips")
    let hasItems := jsTruthy (jsGet sectionData "items") && jsIsArray (jsGet sectionData "items")
    if !hasTips && !hasItems then
      ["\"" ++ sectionName ++ "\" must have either \"tips\" or \"items\" array"]
    else []
  | .relatedCB, sectionData, sectionName =>
    let hasLinks := jsTruthy (jsGet sectionData "links") && jsIsArray (jsGet sectionData "links")
    let hasItems := jsTruthy (jsGet sectionData "items") && jsIsArray (jsGet sectionData "items")
    if !hasLinks && !hasItems then
      ["\"" ++ sectionName ++ "\" must have either \"links\" or \"items\" array"]
    else []

/-- The `quickReference.items` per-item `validate` callback (source
lines 32-50). -/
def quickRefItemValidate (item : JSVal) (index : Nat) (path : String) : List String :=
  if !(jsIsObjectType item) || item.isNull then
    [path ++ "[" ++ natToStr index ++ "] must be an object"]
  else
    (if (jsGet item "ingredient").isNone then
      [path ++ "[" ++ natToStr index ++ "] missing required key: \"ingredient\""] else []) ++
    (let valueKeys := (jsKeys item).filter
        (fun key => !(["ingredient", "icon", "tip"].contains key))
     if valueKeys.length = 0 then
      [path ++ "[" ++ natToStr index ++
        "] must have at least one conversion value (cup, grams, celsius, etc.)"] else [])

/-!
## Array-field validators (source lines 856-1011)
-/

/-- Iterate a JS `array.forEach((item, index) => ...)` that appends
error strings. -/
def forEachIdxAux (f : Nat → JSVal → List String) : Nat → List JSVal → List String
  | _, [] => []
  | i, x :: xs => f i x ++ forEachIdxAux f (i + 1) xs

def forEachIdx (xs : List JSVal) (f : Nat → JSVal → List String) : List String :=
  forEachIdxAux f 0 xs

/-- `validateGenericArray` (source lines 961-990). -/
def validateGenericArray (path : String) (array : JSVal) (st : ArrayFieldSpec) : List String :=
  match array with
  | .arr xs =>
    (match st.minItems with
     | some m =>
       if xs.length < m then
         ["\"" ++ path ++ "\" must have at least " ++ natToStr m ++
          " items (has " ++ natToStr xs.length ++ ")"]
       else []
     | none => []) ++
    (match st.itemStructure with
     | some is =>
       forEachIdx xs (fun index item =>
         if is.itype = some "object" then
           if !(jsIsObjectType item) || item.isNull then
             ["\"" ++ path ++ "[" ++ natToStr index ++ "]\" must be an object"]
           else
             is.requiredKeys.filterMap (fun key =>
               if (jsIndex item key).isNone then
                 some ("\"" ++ path ++ "[" ++ natToStr index ++
                       "]\" missing required key: \"" ++ key ++ "\"")
               else none)
         else if is.itype = some "string" then
           match item with
           | .str _ => []
           | _ => ["\"" ++ path ++ "[" ++ natToStr index ++
                   "]\" must be a string (got " ++ jsTypeof item ++ ")"]
         else [])
     | none => [])
  | _ => ["\"" ++ path ++ "\" must be an array"]

/-- `validateStringArray` (source lines 992-1007). -/
def validateStringArray (path : String) (array : JSVal) (st : ArrayFieldSpec) : List String :=
  match array with
  | .arr xs =>
    (match st.minItems with
     | some m =>
       if xs.length < m then
         ["\"" ++ path ++ "\" must have at least " ++ natToStr m ++
          " items (has " ++ natToStr xs.length ++ ")"]
       else []
     | none => []) ++
    forEachIdx xs (fun index item =>
      match item with
      | .str _ => []
      | _ => ["\"" ++ path ++ "[" ++ natToStr index ++
              "]\" must be a string (got " ++ jsTypeof item ++ ")"])
  | _ => ["\"" ++ path ++ "\" must be an array"]

/-- `validateFlexibleItemsArray` (source lines 943-959): items may be
strings or objects. -/
def validateFlexibleItemsArray (path : String) (array : JSVal) (st : ArrayFieldSpec) : List String :=
  match array with
  | .arr xs =>
    (match st.minItems with
     | some m =>
       if xs.length < m then
         ["\"" ++ path ++ "\" must have at least " ++ natToStr m ++
          " items (has " ++ natToStr xs.length ++ ")"]
       else []
     | none => []) ++
    forEachIdx xs (fun index item =>
      match item with
      | .str _ => []
      | _ =>
        if !(jsIsObjectType item) || item.isNull then
          ["\"" ++ path ++ "[" ++ natToStr index ++ "]\" must be a string or object"]
        else [])
  | _ => ["\"" ++ path ++ "\" must be an array"]

/-- `validateQuickReferenceItems` (source lines 919-941). -/
def validateQuickReferenceItems (path : String) (array : JSVal) (st : ArrayFieldSpec) : List String :=
  match array with
  | .arr xs =>
    (match st.minItems with
     | some m =>
       if xs.length < m then
         ["\"" ++ path ++ "\" must have at least " ++ natToStr m ++
          " items (has " ++ natToStr xs.length ++ ")"]
       else []
     | none => []) ++
    forEachIdx xs (fun index item =>
      match st.itemStructure with
      | some is =>
        if is.hasValidate then quickRefItemValidate item index path
        else if !(jsIsObjectType item) || item.isNull then
          ["\"" ++ path ++ "[" ++ natToStr index ++ "]\" must be an object"]
        else if (jsGet item "ingredient").isNone then
          ["\"" ++ path ++ "[" ++ natToStr index ++ "]\" missing required key: \"ingredient\""]
        else []
      | none =>
        if !(jsIsObjectType item) || item.isNull then
          ["\"" ++ path ++ "[" ++ natToStr index ++ "]\" must be an object"]
        else if (jsGet item "ingredient").isNone then
          ["\"" ++ path ++ "[" ++ natToStr index ++ "]\" missing required key: \"ingredient\""]
        else [])
  | _ => ["\"" ++ path ++ "\" must be an array"]

/-- `validateMistakesArray` (source lines 1009-1011) delegates to
`validateGenericArray`. -/
def validateMistakesArray (path : String) (array : JSVal) (st : ArrayFieldSpec) : List String :=
  validateGenericArray path array st

/-- One `if (structure.X && sectionData.X !== undefined)` dispatch of
`validateNestedStructures`. -/
def nestedArrayCheck (field : Option ArrayFieldSpec) (v : Option JSVal)
    (run : JSVal → ArrayFieldSpec → List String) : List String :=
  match field, v with
  | some af, some w => run w af
  | _, _ => []

/-- The `columns`/`rows` checks of `validateNestedStructures` (source
lines 902-916): only array-ness and `minItems` are enforced. -/
def columnsRowsCheck (path : String) (field : Option ArrayFieldSpec) (v : Option JSVal) : List String :=
  match field, v with
  | some af, some w =>
    (match w with
     | .arr xs =>
       match af.minItems with
       | some m =>
         if xs.length < m then
           ["\"" ++ path ++ "\" must have at least " ++ natToStr m ++
            " items (has " ++ natToStr xs.length ++ ")"]
         else []
       | none => []
     | _ => ["\"" ++ path ++ "\" must be an array"])
  | _, _ => []

/-- `validateNestedStructures` (source lines 856-917). -/
def validateNestedStructures (sectionName : String) (sectionData : JSVal)
    (st : SectionStructure) : List String :=
  nestedArrayCheck st.items (jsGet sectionData "items") (fun w af =>
    if sectionName = "quickReference" then
      validateQuickReferenceItems (sectionName ++ ".items") w af
    else if sectionName = "tips" || sectionName = "related" then
      validateFlexibleItemsArray (sectionName ++ ".items") w af
    else
      validateGenericArray (sectionName ++ ".items") w af) ++
  nestedArrayCheck st.tips (jsGet sectionData "tips")
    (fun w af => validateStringArray (sectionName ++ ".tips") w af) ++
  nestedArrayCheck st.links (jsGet sectionData "links")
    (fun w af => validateStringArray (sectionName ++ ".links") w af) ++
  nestedArrayCheck st.mistakes (jsGet sectionData "mistakes")
    (fun w af => validateMistakesArray (sectionName ++ ".mistakes") w af) ++
  nestedArrayCheck st.tools (jsGet sectionData "tools")
    (fun w af => validateGenericArray (sectionName ++ ".tools") w af) ++
  nestedArrayCheck st.concepts (jsGet sectionData "concepts")
    (fun w af => validateGenericArray (sectionName ++ ".concepts") w af) ++
  nestedArrayCheck st.regions (jsGet sectionData "regions")
    (fun w af => validateGenericArray (sectionName ++ ".regions") w af) ++
  nestedArrayCheck st.examples (jsGet sectionData "examples")
    (fun w af => validateGenericArray (sectionName ++ ".examples") w af) ++
  nestedArrayCheck st.steps (jsGet sectionData "steps")
    (fun w af => validateGenericArray (sectionName ++ ".steps") w af) ++
  columnsRowsCheck (sectionName ++ ".columns") st.columns (jsGet sectionData "columns") ++
  columnsRowsCheck (sectionName ++ ".rows") st.rows (jsGet sectionData "rows")

/-- `validateContentSection` (source lines 815-854).  The section-level
callback is wrapped in `try/catch` in the source; the three concrete
callbacks in the table are total, so the catch branch is unreachable and
the function as a whole is total. -/
def validateContentSection (sectionName : String) (sectionData : JSVal) : List String :=
  if sectionName = "converter" then []
  else
    match SECTION_STRUCTURES sectionName with
    | none => ["Unknown section: \"" ++ sectionName ++ "\" in contentSections"]
    | some st =>
      if !(jsIsObjectType sectionData) || sectionData.isNull then
        ["Section \"" ++ sectionName ++ "\" must be an object"]
      else
        st.requiredKeys.filterMap (fun key =>
          if (jsIndex sectionData key).isNone then
            some ("contentSections." ++ sectionName ++ " missing required key: \"" ++ key ++ "\"")
          else none) ++
        (match st.sectionValidate with
         | some cb => runSectionCallback cb sectionData ("contentSections." ++ sectionName)
         | none => []) ++
        validateNestedStructures sectionName sectionData st

/-!
## Conversion matrix, top-level FAQs and word count (source lines 698-813)
-/

/-- `const conversions = converter.conversions || {}` (source line 766). -/
def conversionsObjOf (c : JSVal) : JSVal :=
  match jsGet c "conversions" with
  | some v => if jsTruthyV v then v else .obj []
  | none => .obj []

/-- `const supportedUnits = converter.supportedUnits || []` (source
line 765; every call site guarantees a non-empty array). -/
def supportedUnitsOf (c : JSVal) : List JSVal :=
  match jsGet c "supportedUnits" with
  | some (.arr xs) => xs
  | _ => []

/-- Strict JS equality `v === 1` of a possibly-`undefined` value with the
number one. -/
def jsStrictEqOne : Option JSVal → Bool
  | some (.num n) => n.numEq ⟨1, 0⟩
  | _ => false

/-- The body of the self-conversion loop (source lines 787-791): the error
the loop emits for one unit, if any. -/
def selfConvError (conversions : JSVal) (unit : JSVal) : Option String :=
  let entry := jsIndex conversions (jsKey unit)
  if jsTruthy entry && !(jsStrictEqOne (jsIndexO entry (jsKey unit))) then
    some ("Self-conversion for \"" ++ jsKey unit ++ "\" must be 1 (got: " ++
          jsOptToString (jsIndexO entry (jsKey unit)) ++ ")")
  else none

/-- `validateConversionMatrix` (source lines 764-792), returning the list
of errors it appends. -/
def validateConversionMatrix (converter : JSVal) : List String :=
  let supportedUnits := supportedUnitsOf converter
  let conversions := conversionsObjOf converter
  if supportedUnits.length = 0 then []
  else
    supportedUnits.filterMap (fun unit =>
      if !(jsTruthy (jsIndex conversions (jsKey unit))) then
        some ("Missing conversion entry for unit: \"" ++ jsKey unit ++ "\"")
      else none) ++
    (supportedUnits.map (fun fromUnit =>
      supportedUnits.filterMap (fun toUnit =>
        if jsTruthy (jsIndex conversions (jsKey fromUnit)) &&
           (jsIndexO (jsIndex conversions (jsKey fromUnit)) (jsKey toUnit)).isNone then
          some ("Missing conversion: \"" ++ jsKey fromUnit ++ "\" → \"" ++ jsKey toUnit ++ "\"")
        else none))).flatten ++
    supportedUnits.filterMap (selfConvError conversions)

/-- The element loop of `validateTopLevelFAQs` (source lines 805-812);
`faq.question` on a `null` element throws a `TypeError`. -/
def faqListErrors : Nat → List JSVal → Except String (List String)
  | _, [] => .ok []
  | index, faq :: rest =>
    if faq.isNull then .error "TypeError: Cannot read properties of null (reading question)"
    else do
      let tail ← faqListErrors (index + 1) rest
      .ok ((if !(jsTruthy (jsGet faq "question")) then
              ["\"faqs\"[" ++ natToStr index ++ "] missing required field: \"question\""]
            else []) ++
           (if !(jsTruthy (jsGet faq "answer")) then
              ["\"faqs\"[" ++ natToStr index ++ "] missing required field: \"answer\""]
            else []) ++ tail)

/-- `validateTopLevelFAQs` (source lines 794-813). -/
def validateTopLevelFAQs (faqsArray : JSVal) : Except String (List String) :=
  match faqsArray with
  | .arr [] => .ok ["\"faqs\" array cannot be empty"]
  | .arr xs => faqListErrors 0 xs
  | _ => .ok ["\"faqs\" must be an array"]

mutual

/-- `countWordsInObject` (source lines 722-742): total words over the
string leaves of a container; non-containers contribute nothing
(`if (!obj || typeof obj !== 'object') return`).  In each element/value
position, strings are counted, non-null objects and arrays are recursed,
and everything else is ignored. -/
def countWordsInObject : JSVal → Nat
  | .arr xs => cwList xs
  | .obj fs => cwFields fs
  | _ => 0

def cwList : List JSVal → Nat
  | [] => 0
  | v :: vs =>
    (match v with
     | .str s => countTokens s
     | .arr ys => countWordsInObject (.arr ys)
     | .obj gs => countWordsInObject (.obj gs)
     | _ => 0) + cwList vs

def cwFields : List (String × JSVal) → Nat
  | [] => 0
  | (_, v) :: fs =>
    (match v with
     | .str s => countTokens s
     | .arr ys => countWordsInObject (.arr ys)
     | .obj gs => countWordsInObject (.obj gs)
     | _ => 0) + cwFields fs

end

/-- The per-element contribution inside `countWordsInObject` (named for
use in lemma statements; `cwList`/`cwFields` sum it over elements). -/
def cwElem : JSVal → Nat
  | .str s => countTokens s
  | .arr ys => countWordsInObject (.arr ys)
  | .obj gs => countWordsInObject (.obj gs)
  | _ => 0

/-- The FAQ part of `calculateWordCount` (source lines 754-759):
`faq.question` on a `null` element throws. -/
def faqWordsE : List JSVal → Except String Nat
  | [] => .ok 0
  | faq :: rest =>
    if faq.isNull then .error "TypeError: Cannot read properties of null (reading question)"
    else do
      let tail ← faqWordsE rest
      .ok ((if jsTruthy (jsGet faq "question") then countWordsO (jsGet faq "question") else 0) +
           (if jsTruthy (jsGet faq "answer") then countWordsO (jsGet faq "answer") else 0) + tail)

/-- `calculateWordCount` (source lines 714-762). -/
def calculateWordCount (converter : JSVal) : Except String Nat :=
  let t := if jsTruthy (jsGet converter "title") then countWordsO (jsGet converter "title") else 0
  let d := if jsTruthy (jsGet converter "description") then
             countWordsO (jsGet converter "description") else 0
  let cs := match jsGet converter "contentSections" with
    | some v => if jsTruthyV v then countWordsInObject v else 0
    | none => 0
  match jsGet converter "faqs" with
  | some (.arr xs) => (faqWordsE xs).map (fun fw => t + d + cs + fw)
  | _ => .ok (t + d + cs)

/-!
## The record validator `validateSingleConverter` (source lines 578-712)
-/

def TOP_LEVEL_REQUIRED_KEYS : List String :=
  ["id", "slug", "title", "description", "keywords", "categories",
   "manualRelatedLinks", "featured", "contentSequence", "defaults",
   "supportedUnits", "faqs", "contentSections"]

def TOP_LEVEL_OPTIONAL_KEYS : List String :=
  ["conversions", "conversionFormulas", "ingredientFormulas"]

def SPECIAL_SECTIONS : List String := ["converter", "faq", "faqs"]

/-- Step 1 (source lines 582-586): required top-level keys. -/
def requiredKeyErrors (c : JSVal) : List String :=
  TOP_LEVEL_REQUIRED_KEYS.filterMap (fun key =>
    if (jsGet c key).isNone then some ("Missing required field: \"" ++ key ++ "\"") else none)

/-- `hasConversions` (source line 597). -/
def hasConversions (c : JSVal) : Bool :=
  match jsGet c "conversions" with
  | some v => jsTruthyV v && jsIsObjectType v
  | none => false

/-- `hasConversionFormulas` (source line 598). -/
def hasConversionFormulas (c : JSVal) : Bool :=
  jsTruthy (jsGet c "conversionFormulas") && jsIsArray (jsGet c "conversionFormulas")

/-- Step 3 (source lines 600-602): conversion-representation error. -/
def conversionRepErrors (c : JSVal) : List String :=
  if !(hasConversions c) && !(hasConversionFormulas c) then
    ["Must have either \"conversions\" object or \"conversionFormulas\" array"]
  else []

/-- One check of step 4 (source lines 608-635). -/
def arrayFieldCheck (c : JSVal) (field : String) : List String :=
  if jsTruthy (jsGet c field) && !(jsIsArray (jsGet c field)) then
    ["\"" ++ field ++ "\" must be an array"]
  else []

/-- Step 4 (source lines 608-635): fields that must be arrays if present. -/
def arrayTypeErrors (c : JSVal) : List String :=
  arrayFieldCheck c "keywords" ++
  arrayFieldCheck c "categories" ++
  arrayFieldCheck c "manualRelatedLinks" ++
  arrayFieldCheck c "supportedUnits" ++
  arrayFieldCheck c "conversionFormulas" ++
  arrayFieldCheck c "ingredientFormulas" ++
  arrayFieldCheck c "faqs"

/-- Step 5 (source lines 637-640): `featured`, if present, is a boolean. -/
def featuredErrors (c : JSVal) : List String :=
  match jsGet c "featured" with
  | none => []
  | some (.bool _) => []
  | some _ => ["\"featured\" must be a boolean"]

def seqIncludesHero (xs : List JSVal) : Bool :=
  xs.any (fun v => match v with | .str s => s = "hero" | _ => false)

/-- Step 6 (source lines 642-649): `contentSequence` shape checks. -/
def contentSequenceErrors (c : JSVal) : List String :=
  match jsGet c "contentSequence" with
  | some (.arr xs) =>
    if xs.length = 0 then ["\"contentSequence\" cannot be empty"]
    else if !(seqIncludesHero xs) then ["\"contentSequence\" must include \"hero\" section"]
    else []
  | _ => ["\"contentSequence\" must be an array"]

/-- The body of the cross-check loop (source lines 659-664): the error, if
any, for one `contentSequence` element. -/
def crossSeqCheck (contentSections : JSVal) (sectionName : JSVal) : Option String :=
  if (match sectionName with | .str s => SPECIAL_SECTIONS.contains s | _ => false) then none
  else if jsTruthy (jsIndex contentSections (jsKey sectionName)) then none
  else some ("Section \"" ++ jsKey sectionName ++
             "\" in contentSequence not found in contentSections")

/-- The cross-check of step 7 (source lines 657-665): `forEach` on a truthy
non-array `contentSequence` throws a `TypeError`. -/
def crossSeqErrorsE (c : JSVal) (contentSections : JSVal) : Except String (List String) :=
  match jsGet c "contentSequence" with
  | none => .ok []
  | some v =>
    if jsTruthyV v then
      match v with
      | .arr xs => .ok (xs.filterMap (crossSeqCheck contentSections))
      | _ => .error "TypeError: converter.contentSequence.forEach is not a function"
    else .ok []

/-- The per-section loop of step 7 (source lines 668-671). -/
def sectionsErrors : List (String × JSVal) → List String
  | [] => []
  | (name, data) :: rest => validateContentSection name data ++ sectionsErrors rest

/-- Step 7 (source lines 651-672): `contentSections` validation. -/
def contentSectionsErrorsE (c : JSVal) : Except String (List String) :=
  match jsGet c "contentSections" with
  | some v =>
    if jsTruthyV v && jsIsObjectType v then do
      let crossErrs ← crossSeqErrorsE c v
      .ok (crossErrs ++ sectionsErrors (jsEntries v))
    else .ok ["\"contentSections\" must be an object"]
  | none => .ok ["\"contentSections\" must be an object"]

/-- Step 8 (source lines 674-686): `defaults` validation. -/
def defaultsErrors (c : JSVal) : List String :=
  match jsGet c "defaults" with
  | none => ["Missing required field: \"defaults\""]
  | some v =>
    if !(jsTruthyV v) then ["Missing required field: \"defaults\""]
    else if !(jsIsObjectType v) then ["\"defaults\" must be an object"]
    else
      ["value", "from", "to"].filterMap (fun key =>
        if (jsIndex v key).isNone then some ("\"defaults." ++ key ++ "\" is required") else none)

/-- Step 9 (source lines 688-696): `supportedUnits` and, when the
`conversions` representation is active, the matrix check. -/
def supportedUnitsErrors (c : JSVal) : List String :=
  match jsGet c "supportedUnits" with
  | some (.arr xs) =>
    if xs.length = 0 then ["\"supportedUnits\" cannot be empty"]
    else if hasConversions c then validateConversionMatrix c
    else []
  | _ => ["\"supportedUnits\" must be an array"]

/-- Step 10 (source lines 698-701): top-level `faqs`, when truthy. -/
def faqsStepE (c : JSVal) : Except String (List String) :=
  match jsGet c "faqs" with
  | some v => if jsTruthyV v then validateTopLevelFAQs v else .ok []
  | none => .ok []

/-- The word-count error message of step 11 (source lines 707-709). -/
def lowContentMsg (wordCount : Nat) : String :=
  "Low content volume: Only " ++ natToStr wordCount ++ " words (minimum 1000 words required)"

/-- `validateSingleConverter` (source lines 578-712): the record's error
list in push order, together with the record's computed word count (the
word count is returned so the collection loop can store it, modelling the
`this.wordCounts[converter.id] = wordCount` side effect of line 705).
Steps 1-6, 8 and 9 cannot throw; the `TypeError` paths are the first
property access on a `null` record, the `forEach` on a truthy non-array
`contentSequence` inside step 7, and `faq.question` on a `null` element of
`faqs` in steps 10-11. -/
def validateSingleConverter (converter : JSVal) : Except String (List String × Nat) :=
  if converter.isNull then .error "TypeError: Cannot read properties of null (reading id)"
  else do
    let errs7 ← contentSectionsErrorsE converter
    let errs10 ← faqsStepE converter
    let wordCount ← calculateWordCount converter
    .ok (requiredKeyErrors converter ++
         conversionRepErrors converter ++
         arrayTypeErrors converter ++
         featuredErrors converter ++
         contentSequenceErrors converter ++
         errs7 ++
         defaultsErrors converter ++
         supportedUnitsErrors converter ++
         errs10 ++
         (if wordCount < 1000 then [lowContentMsg wordCount] else []),
         wordCount)

/-!
## The collection validator `validateConverters` (source lines 486-518)
-/

/-- The validation report (source lines 510-517). -/
structure ValidationReport where
  isValid : Bool
  total : Nat
  valid : Nat
  failed : Nat
  failedIds : List String
  wordCounts : List (String × Nat)
deriving DecidableEq

/-- JS property assignment `wordCounts[key] = n`: overwrite in place or
append. -/
def upsertWordCount : List (String × Nat) → String → Nat → List (String × Nat)
  | [], key, n => [(key, n)]
  | (k2, m) :: rest, key, n =>
    if k2 = key then (k2, n) :: rest else (k2, m) :: upsertWordCount rest key n

/-- `converter.id || converter-index` (source line 490), rendered as the
display string pushed into `failedIds`. -/
def converterIdOf (c : JSVal) (index : Nat) : String :=
  if jsTruthy (jsGet c "id") then jsOptToString (jsGet c "id")
  else "converter-" ++ natToStr index

/-- The `forEach` loop of `validateConverters` (source lines 489-506):
threads `failedIds` and `wordCounts`; the `converter.id` access on a
`null` record throws. -/
def validateConvertersAux :
    List JSVal → Nat → List String → List (String × Nat) →
    Except String (List String × List (String × Nat))
  | [], _, failedIds, wordCounts => .ok (failedIds, wordCounts)
  | c :: rest, index, failedIds, wordCounts =>
    if c.isNull then .error "TypeError: Cannot read properties of null (reading id)"
    else do
      let r ← validateSingleConverter c
      validateConvertersAux rest (index + 1)
        (if r.1.length = 0 then failedIds else failedIds ++ [converterIdOf c index])
        (upsertWordCount wordCounts (jsOptToString (jsGet c "id")) r.2)

/-- `validateConverters` (source lines 486-518). -/
def validateConverters (converters : List JSVal) : Except String ValidationReport :=
  (validateConvertersAux converters 0 [] []).map (fun r =>
    { isValid := r.1.isEmpty
      total := converters.length
      valid := converters.length - r.1.length
      failed := r.1.length
      failedIds := r.1
      wordCounts := r.2 })

/-!
## Proof infrastructure
-/

deriving instance DecidableEq for Except

/-- Equation lemma: `cwList` on a cons. -/
theorem cwList_cons (v : JSVal) (vs : List JSVal) :
    cwList (v :: vs) = cwElem v + cwList vs := by
  cases v <;> simp [cwList, cwElem]

/-- Equation lemma: `cwFields` on a cons. -/
theorem cwFields_cons (k : String) (v : JSVal) (fs : List (String × JSVal)) :
    cwFields ((k, v) :: fs) = cwElem v + cwFields fs := by
  cases v <;> simp [cwFields, cwElem]

theorem countWordsInObject_arr (xs : List JSVal) :
    countWordsInObject (.arr xs) = cwList xs := by
  simp [countWordsInObject]

theorem countWordsInObject_obj (fs : List (String × JSVal)) :
    countWordsInObject (.obj fs) = cwFields fs := by
  simp [countWordsInObject]

/-- Decomposition of a successful `validateSingleConverter` run into its
eleven steps. -/
theorem validateSingleConverter_ok {c : JSVal} {errs : List String} {wc : Nat}
    (h : validateSingleConverter c = .ok (errs, wc)) :
    ∃ e7 e10, contentSectionsErrorsE c = .ok e7 ∧ faqsStepE c = .ok e10 ∧
      calculateWordCount c = .ok wc ∧
      errs = requiredKeyErrors c ++ conversionRepErrors c ++ arrayTypeErrors c ++
             featuredErrors c ++ contentSequenceErrors c ++ e7 ++ defaultsErrors c ++
             supportedUnitsErrors c ++ e10 ++
             (if wc < 1000 then [lowContentMsg wc] else []) := by
  unfold validateSingleConverter at h
  by_cases hn : c.isNull = true
  · simp [hn] at h
  · simp only [Bool.not_eq_true] at hn
    simp only [hn, Bool.false_eq_true, if_false] at h
    cases h7 : contentSectionsErrorsE c with
    | error e => simp [h7, bind, Except.bind] at h
    | ok e7 =>
      cases h10 : faqsStepE c with
      | error e => simp [h7, h10, bind, Except.bind] at h
      | ok e10 =>
        cases hw : calculateWordCount c with
        | error e => simp [h7, h10, hw, bind, Except.bind] at h
        | ok w =>
          simp [h7, h10, hw, bind, Except.bind] at h
          obtain ⟨h1, h2⟩ := h
          subst h2
          exact ⟨e7, e10, rfl, rfl, rfl, by simpa using h1.symm⟩


/-- Membership in `sectionsErrors` from membership of a section's own
error list. -/
theorem sectionsErrors_mem {fs : List (String × JSVal)} {name : String} {data : JSVal}
    {m : String} (hmem : (name, data) ∈ fs) (hm : m ∈ validateContentSection name data) :
    m ∈ sectionsErrors fs := by
  induction fs with
  | nil => cases hmem
  | cons p rest ih =>
    obtain ⟨n2, d2⟩ := p
    rcases List.mem_cons.mp hmem with heq | htail
    · rw [Prod.mk.injEq] at heq
      simp only [sectionsErrors, List.mem_append]
      left
      rw [← heq.1, ← heq.2]
      exact hm
    · simp only [sectionsErrors, List.mem_append]
      exact Or.inr (ih htail)

/-- A record whose `contentSequence`, when truthy, is an array: the
condition under which step 7 cannot throw. -/
def seqSafe (c : JSVal) : Bool :=
  match jsGet c "contentSequence" with
  | some v => !jsTruthyV v || jsIsArrayV v
  | none => true

/-- A record whose top-level `faqs` array (when it is an array) has no
`null` elements: the condition under which steps 10-11 cannot throw. -/
def faqsSafe (c : JSVal) : Bool :=
  match jsGet c "faqs" with
  | some (.arr xs) => xs.all (fun f => !f.isNull)
  | _ => true

/-- A computation shown to be in the `ok` branch hits some `ok` value. -/
theorem exists_ok {A B : Type} (x : Except A B)
    (h : (match x with | .ok _ => true | .error _ => false) = true) :
    ∃ b, x = .ok b := by
  cases x with
  | ok b => exact ⟨b, rfl⟩
  | error e => simp at h

theorem faqListErrors_ok {xs : List JSVal} (h : xs.all (fun f => !f.isNull) = true) :
    ∀ i, ∃ l, faqListErrors i xs = .ok l := by
  induction xs with
  | nil => exact fun i => ⟨[], rfl⟩
  | cons f fs ih =>
    intro i
    rw [List.all_cons, Bool.and_eq_true] at h
    obtain ⟨l, hl⟩ := ih h.2 (i + 1)
    have hf : f.isNull = false := by
      have := h.1; revert this; cases f.isNull <;> simp
    exact exists_ok _ (by simp [faqListErrors, hf, hl, bind, Except.bind])

theorem faqWordsE_ok {xs : List JSVal} (h : xs.all (fun f => !f.isNull) = true) :
    ∃ n, faqWordsE xs = .ok n := by
  induction xs with
  | nil => exact ⟨0, rfl⟩
  | cons f fs ih =>
    rw [List.all_cons, Bool.and_eq_true] at h
    obtain ⟨n, hn⟩ := ih h.2
    have hf : f.isNull = false := by
      have := h.1; revert this; cases f.isNull <;> simp
    exact exists_ok _ (by simp [faqWordsE, hf, hn, bind, Except.bind])

theorem crossSeqErrorsE_ok {c : JSVal} (cs : JSVal) (h2 : seqSafe c = true) :
    ∃ l, crossSeqErrorsE c cs = .ok l := by
  unfold seqSafe at h2
  unfold crossSeqErrorsE
  cases hq : jsGet c "contentSequence" with
  | none => exact ⟨[], rfl⟩
  | some w =>
    rw [hq] at h2
    by_cases ht : jsTruthyV w = true
    · simp only [ht, if_true]
      cases w with
      | arr xs => exact ⟨_, rfl⟩
      | null => simp [jsTruthyV] at ht
      | bool b => simp [ht, jsIsArrayV] at h2
      | num n => simp [ht, jsIsArrayV] at h2
      | str s => simp [ht, jsIsArrayV] at h2
      | obj fs => simp [ht, jsIsArrayV] at h2
    · simp only [Bool.not_eq_true] at ht
      simp [ht]

theorem contentSectionsErrorsE_ok {c : JSVal} (h2 : seqSafe c = true) :
    ∃ l, contentSectionsErrorsE c = .ok l := by
  unfold contentSectionsErrorsE
  cases hs : jsGet c "contentSections" with
  | none => exact ⟨_, rfl⟩
  | some v =>
    by_cases hv : (jsTruthyV v && jsIsObjectType v) = true
    · obtain ⟨l, hl⟩ := crossSeqErrorsE_ok (c := c) v h2
      exact ⟨l ++ sectionsErrors (jsEntries v), by simp only [hv, if_true]; rw [hl]; rfl⟩
    · simp only [Bool.not_eq_true] at hv
      exact ⟨["\"contentSections\" must be an object"], by simp [hv]⟩

theorem faqsStepE_ok {c : JSVal} (h3 : faqsSafe c = true) :
    ∃ l, faqsStepE c = .ok l := by
  unfold faqsSafe at h3
  unfold faqsStepE
  cases hf : jsGet c "faqs" with
  | none => exact ⟨[], rfl⟩
  | some v =>
    rw [hf] at h3
    by_cases ht : jsTruthyV v = true
    · simp only [ht, if_true]
      cases v with
      | arr xs =>
        cases xs with
        | nil => exact ⟨_, rfl⟩
        | cons f fs =>
          obtain ⟨l, hl⟩ := faqListErrors_ok h3 0
          exact ⟨l, by simpa [validateTopLevelFAQs] using hl⟩
      | null => exact ⟨_, rfl⟩
      | bool b => exact ⟨_, rfl⟩
      | num n => exact ⟨_, rfl⟩
      | str s => exact ⟨_, rfl⟩
      | obj fs => exact ⟨_, rfl⟩
    · simp only [Bool.not_eq_true] at ht
      simp [ht]

theorem calculateWordCount_ok {c : JSVal} (h3 : faqsSafe c = true) :
    ∃ n, calculateWordCount c = .ok n := by
  unfold faqsSafe at h3
  unfold calculateWordCount
  cases hf : jsGet c "faqs" with
  | none => exact ⟨_, rfl⟩
  | some v =>
    rw [hf] at h3
    cases v with
    | arr xs =>
      obtain ⟨n, hn⟩ := faqWordsE_ok h3
      exact exists_ok _ (by simp [hn, Except.map])
    | null => exact ⟨_, rfl⟩
    | bool b => exact ⟨_, rfl⟩
    | num n => exact ⟨_, rfl⟩
    | str s => exact ⟨_, rfl⟩
    | obj fs => exact ⟨_, rfl⟩

/-!
## Concrete records used by the claim theorems
-/

/-- The P3 scenario of claim C1: `supportedUnits = ["a","b","c"]`,
`conversions` holding only an `a`-to-`b` and a `b`-to-`a` entry. -/
def C1converter : JSVal := .obj [
  ("supportedUnits", .arr [.str "a", .str "b", .str "c"]),
  ("conversions", .obj [
    ("a", .obj [("b", .num ⟨2, 0⟩)]),
    ("b", .obj [("a", .num ⟨5, 1⟩)])])]

/-- A record whose top-level `faqs` array contains a `null` element. -/
def C2badRecord : JSVal := .obj [("faqs", .arr [.null])]

/-- A record passing every shape check except the word-count gate. -/
def GOODrec : JSVal := .obj [
  ("id", .str "g1"), ("slug", .str "g"), ("title", .str "T"),
  ("description", .str "some words of description here"),
  ("keywords", .arr []), ("categories", .arr []), ("manualRelatedLinks", .arr []),
  ("featured", .bool true), ("contentSequence", .arr [.str "hero"]),
  ("defaults", .obj [("value", .num ⟨1, 0⟩), ("from", .str "g"), ("to", .str "g")]),
  ("supportedUnits", .arr [.str "g"]),
  ("faqs", .arr [.obj [("question", .str "Q?"), ("answer", .str "A.")]]),
  ("contentSections", .obj [("hero", .obj [("title", .str "Hero title")])]),
  ("conversions", .obj [("g", .obj [("g", .num ⟨1, 0⟩)])])]

/-- A minimal record with a three-word title and nothing else. -/
def C3record : JSVal := .obj [("title", .str "three words now")]

/-- The full error list `validateSingleConverter` produces on `C3record`. -/
def C3errors : List String :=
  ["Missing required field: \"id\"", "Missing required field: \"slug\"",
   "Missing required field: \"description\"", "Missing required field: \"keywords\"",
   "Missing required field: \"categories\"", "Missing required field: \"manualRelatedLinks\"",
   "Missing required field: \"featured\"", "Missing required field: \"contentSequence\"",
   "Missing required field: \"defaults\"", "Missing required field: \"supportedUnits\"",
   "Missing required field: \"faqs\"", "Missing required field: \"contentSections\"",
   "Must have either \"conversions\" object or \"conversionFormulas\" array",
   "\"contentSequence\" must be an array",
   "\"contentSections\" must be an object", "Missing required field: \"defaults\"",
   "\"supportedUnits\" must be an array",
   "Low content volume: Only 3 words (minimum 1000 words required)"]

/-!
## Claim C1 — conversion-matrix completeness on the P3 scenario
-/

/-- Claim C1 counterexample: on the P3 scenario the matrix check does NOT
report the seven ordered pairs `a-a, a-c, b-b, b-c, c-a, c-b, c-c` as
missing-pair errors.  The pair loop is guarded by the truthiness of
`conversions[fromUnit]`, so no pair with source `c` is ever reported; the
actual output is one missing-entry error for `c`, four missing-pair
errors, and two self-conversion errors. -/
theorem C1_counterexample :
    validateConversionMatrix C1converter =
      ["Missing conversion entry for unit: \"c\"",
       "Missing conversion: \"a\" → \"a\"", "Missing conversion: \"a\" → \"c\"",
       "Missing conversion: \"b\" → \"b\"", "Missing conversion: \"b\" → \"c\"",
       "Self-conversion for \"a\" must be 1 (got: undefined)",
       "Self-conversion for \"b\" must be 1 (got: undefined)"] ∧
    ¬ ("Missing conversion: \"c\" → \"a\"" ∈ validateConversionMatrix C1converter) ∧
    ¬ ("Missing conversion: \"c\" → \"b\"" ∈ validateConversionMatrix C1converter) ∧
    ¬ ("Missing conversion: \"c\" → \"c\"" ∈ validateConversionMatrix C1converter) := by
  decide

/-- Claim C1, amended: on the P3 scenario the matrix check reports exactly
seven errors, but they are the missing-pair errors `a-a, a-c, b-b, b-c`
(only pairs whose source unit has a truthy `conversions` entry), one
missing-entry error for unit `c`, and self-conversion errors for `a` and
`b` (whose self factors are undefined). -/
theorem C1_matrixErrors :
    validateConversionMatrix C1converter =
      ["Missing conversion entry for unit: \"c\"",
       "Missing conversion: \"a\" → \"a\"", "Missing conversion: \"a\" → \"c\"",
       "Missing conversion: \"b\" → \"b\"", "Missing conversion: \"b\" → \"c\"",
       "Self-conversion for \"a\" must be 1 (got: undefined)",
       "Self-conversion for \"b\" must be 1 (got: undefined)"] := by
  decide

/-!
## Claim C2 — record-level totality
-/

/-- Claim C2 counterexample: a record whose `faqs` array holds a `null`
element makes `validateSingleConverter` throw (the `faq.question` access
inside `validateTopLevelFAQs`), so the exception propagates past the
per-record boundary instead of being converted into an error list. -/
theorem C2_counterexample :
    validateSingleConverter C2badRecord =
      .error "TypeError: Cannot read properties of null (reading question)" := by
  decide

/-- Claim C2, amended: the record validator returns an error list without
throwing for every non-null record whose `contentSequence` is an array
whenever it is truthy and whose `faqs` array (when it is an array) holds
no `null` element; outside those conditions the `TypeError` of the
counterexample escapes the per-record boundary.  Section-callback
exceptions are caught by the `try/catch` of `validateContentSection`
(the embedded `validateContentSection` is total). -/
theorem C2_totality (c : JSVal) (h1 : c.isNull = false)
    (h2 : seqSafe c = true) (h3 : faqsSafe c = true) :
    ∃ r, validateSingleConverter c = .ok r := by
  obtain ⟨e7, h7⟩ := contentSectionsErrorsE_ok (c := c) h2
  obtain ⟨e10, h10⟩ := faqsStepE_ok (c := c) h3
  obtain ⟨wc, hw⟩ := calculateWordCount_ok (c := c) h3
  apply exists_ok
  unfold validateSingleConverter
  simp [h1, h7, h10, hw, bind, Except.bind]

/-- Claim C2 witness: `C2_totality` applied to a concrete record. -/
theorem C2_totality_witness :
    GOODrec.isNull = false ∧ seqSafe GOODrec = true ∧ faqsSafe GOODrec = true ∧
    ∃ r, validateSingleConverter GOODrec = .ok r :=
  ⟨by decide, by decide, by decide,
   C2_totality GOODrec (by decide) (by decide) (by decide)⟩

/-!
## Claim C3 — the word-count gate error message
-/

/-- Claim C3 counterexample: a record with word count 3 (deficit 997) gets
a word-count error naming the actual count and the minimum, but no error
in its list names the deficit value 997. -/
theorem C3_counterexample :
    validateSingleConverter C3record = .ok (C3errors, 3) ∧
    lowContentMsg 3 ∈ C3errors ∧
    C3errors.all (fun e => !(strContains e "997")) = true := by
  refine ⟨by decide, by decide, by decide⟩

/-- Claim C3, amended: whenever the computed word count is below 1000, the
error list contains the word-count error naming the actual count and the
minimum 1000 (`Low content volume: Only N words (minimum 1000 words
required)`); the exact deficit appears only in the summary output of
`printSummary`, not in the record error list. -/
theorem C3_wordCountError (c : JSVal) (errs : List String) (wc : Nat)
    (h : validateSingleConverter c = .ok (errs, wc)) (hlow : wc < 1000) :
    lowContentMsg wc ∈ errs := by
  obtain ⟨e7, e10, h7, h10, hw, herrs⟩ := validateSingleConverter_ok h
  subst herrs
  simp [hlow, List.mem_append]

/-- Claim C3 witness: `C3_wordCountError` applied to the concrete
three-word record. -/
theorem C3_wordCountError_witness :
    validateSingleConverter C3record = .ok (C3errors, 3) ∧ 3 < 1000 ∧
    lowContentMsg 3 ∈ C3errors :=
  ⟨by decide, by decide, C3_wordCountError C3record C3errors 3 (by decide) (by decide)⟩

/-!
## Claim C4 — unknown `contentSections` keys
-/

/-- Claim C4 counterexample: the key `converter` has no entry in the
schema table, yet `validateContentSection` returns no error for it — the
`sectionName === "converter"` early return (source line 818) is a silent
pass for a schema-less key, contradicting the never-a-silent-pass claim. -/
theorem C4_counterexample :
    SECTION_STRUCTURES "converter" = none ∧
    validateContentSection "converter" (.obj []) = [] ∧
    validateContentSection "converter" (.num ⟨5, 0⟩) = [] := by
  refine ⟨by decide, by decide, by decide⟩

/-- A record whose `contentSections` has a schema-less key that is not in
any `contentSequence`. -/
def C4record : JSVal := .obj [
  ("contentSections", .obj [("madeUpSection", .obj []), ("converter", .num ⟨5, 0⟩)])]

/-- The full error list `validateSingleConverter` produces on `C4record`. -/
def C4errors : List String :=
  ["Missing required field: \"id\"", "Missing required field: \"slug\"",
   "Missing required field: \"title\"", "Missing required field: \"description\"",
   "Missing required field: \"keywords\"", "Missing required field: \"categories\"",
   "Missing required field: \"manualRelatedLinks\"", "Missing required field: \"featured\"",
   "Missing required field: \"contentSequence\"", "Missing required field: \"defaults\"",
   "Missing required field: \"supportedUnits\"", "Missing required field: \"faqs\"",
   "Must have either \"conversions\" object or \"conversionFormulas\" array",
   "\"contentSequence\" must be an array",
   "Unknown section: \"madeUpSection\" in contentSections",
   "Missing required field: \"defaults\"", "\"supportedUnits\" must be an array",
   "Low content volume: Only 0 words (minimum 1000 words required)"]

/-- Claim C4, amended: every key of `contentSections` other than the
exempted name `converter` is dispatched to the schema table, and a key
with no schema entry yields the unknown-section error — including keys
that do not appear in `contentSequence`; the single exception is the key
`converter`, which is skipped before the table lookup and passes
silently. -/
theorem C4_unknownSection (c : JSVal) (sections : List (String × JSVal))
    (name : String) (data : JSVal) (errs : List String) (wc : Nat)
    (h : validateSingleConverter c = .ok (errs, wc))
    (hcs : jsGet c "contentSections" = some (.obj sections))
    (hmem : (name, data) ∈ sections)
    (hnone : SECTION_STRUCTURES name = none)
    (hnc : ¬ name = "converter") :
    ("Unknown section: \"" ++ name ++ "\" in contentSections") ∈ errs := by
  obtain ⟨e7, e10, h7, h10, hw, herrs⟩ := validateSingleConverter_ok h
  subst herrs
  unfold contentSectionsErrorsE at h7
  rw [hcs] at h7
  simp only [jsTruthyV, jsIsObjectType, Bool.and_self, if_true] at h7
  cases hc : crossSeqErrorsE c (.obj sections) with
  | error e => rw [hc] at h7; simp [bind, Except.bind] at h7
  | ok l =>
    rw [hc] at h7
    simp only [bind, Except.bind, Except.ok.injEq, jsEntries] at h7
    have hsec : ("Unknown section: \"" ++ name ++ "\" in contentSections") ∈
        validateContentSection name data := by
      unfold validateContentSection
      rw [if_neg hnc, hnone]
      exact List.mem_singleton.mpr rfl
    have hmem7 : ("Unknown section: \"" ++ name ++ "\" in contentSections") ∈ e7 := by
      rw [← h7]
      exact List.mem_append.mpr (Or.inr (sectionsErrors_mem hmem hsec))
    simp [List.mem_append, hmem7]

/-- Claim C4 witness: `C4_unknownSection` applied to `C4record` and its
schema-less key `madeUpSection`. -/
theorem C4_unknownSection_witness :
    validateSingleConverter C4record = .ok (C4errors, 0) ∧
    SECTION_STRUCTURES "madeUpSection" = none ∧
    ("Unknown section: \"madeUpSection\" in contentSections") ∈ C4errors :=
  ⟨by decide, by decide,
   C4_unknownSection C4record [("madeUpSection", .obj []), ("converter", .num ⟨5, 0⟩)]
     "madeUpSection" (.obj []) C4errors 0 (by decide) rfl (.head _) (by decide) (by decide)⟩

/-!
## Claim C5 — accumulation, not short-circuit
-/

/-- Claim C5: a record violating several independent rules accumulates
each corresponding error in one pass — a missing `defaults` key and a
word count under 1000 both land in the same error list, and both do so
whether or not `contentSections` is present (its absence does not
suppress the word-count check). -/
theorem C5_accumulation (c : JSVal) (d : JSVal) (errs : List String) (wc : Nat)
    (h : validateSingleConverter c = .ok (errs, wc))
    (hd : jsGet c "defaults" = some d) (hdt : jsTruthyV d = true)
    (hdo : jsIsObjectType d = true) (hfrom : (jsIndex d "from").isNone = true)
    (hlow : wc < 1000) :
    "\"defaults.from\" is required" ∈ errs ∧ lowContentMsg wc ∈ errs := by
  obtain ⟨e7, e10, h7, h10, hw, herrs⟩ := validateSingleConverter_ok h
  subst herrs
  constructor
  · have hdef : "\"defaults.from\" is required" ∈ defaultsErrors c := by
      unfold defaultsErrors
      rw [hd]
      simp only [hdt, hdo, Bool.not_true, Bool.false_eq_true, if_false]
      exact List.mem_filterMap.mpr ⟨"from", by simp, by simp [hfrom]⟩
    simp [List.mem_append, hdef]
  · simp [hlow, List.mem_append]

/-- A record with `defaults` missing its `from` key, no `contentSections`
and a word count of zero. -/
def C5record : JSVal := .obj [
  ("defaults", .obj [("value", .num ⟨1, 0⟩), ("to", .str "g")])]

/-- The full error list `validateSingleConverter` produces on `C5record`. -/
def C5errors : List String :=
  ["Missing required field: \"id\"", "Missing required field: \"slug\"",
   "Missing required field: \"title\"", "Missing required field: \"description\"",
   "Missing required field: \"keywords\"", "Missing required field: \"categories\"",
   "Missing required field: \"manualRelatedLinks\"", "Missing required field: \"featured\"",
   "Missing required field: \"contentSequence\"",
   "Missing required field: \"supportedUnits\"", "Missing required field: \"faqs\"",
   "Missing required field: \"contentSections\"",
   "Must have either \"conversions\" object or \"conversionFormulas\" array",
   "\"contentSequence\" must be an array",
   "\"contentSections\" must be an object", "\"defaults.from\" is required",
   "\"supportedUnits\" must be an array",
   "Low content volume: Only 0 words (minimum 1000 words required)"]

/-- Claim C5 witness: `C5_accumulation` applied to `C5record`, whose
`contentSections` is absent — the word-count error still appears next to
the `defaults.from` error (and the `contentSections` error) in one list. -/
theorem C5_accumulation_witness :
    validateSingleConverter C5record = .ok (C5errors, 0) ∧
    "\"contentSections\" must be an object" ∈ C5errors ∧
    ("\"defaults.from\" is required" ∈ C5errors ∧ lowContentMsg 0 ∈ C5errors) :=
  ⟨by decide, by decide,
   C5_accumulation C5record (.obj [("value", .num ⟨1, 0⟩), ("to", .str "g")]) C5errors 0
     (by decide) rfl (by decide) (by decide) (by decide) (by decide)⟩

/-!
## Claim C6 — self-conversion exactness
-/

/-- A record whose `conversions` entry for unit `g` exists but is the
(falsy) number `0`. -/
def C6zeroRec : JSVal := .obj [
  ("supportedUnits", .arr [.str "g"]),
  ("conversions", .obj [("g", .num ⟨0, 0⟩)])]

/-- Claim C6 counterexample: for unit `g` the entry `conversions[g]`
exists (it is the number `0`) and `conversions[g][g]` is not the number
one, yet no self-conversion error is emitted — the self loop is guarded
by the truthiness of `conversions[unit]`, not by its existence. -/
theorem C6_counterexample :
    (jsIndex (conversionsObjOf C6zeroRec) "g").isSome = true ∧
    jsStrictEqOne (jsIndexO (jsIndex (conversionsObjOf C6zeroRec) "g") "g") = false ∧
    validateConversionMatrix C6zeroRec = ["Missing conversion entry for unit: \"g\""] ∧
    (validateConversionMatrix C6zeroRec).all
      (fun e => !(strContains e "Self-conversion")) = true := by
  refine ⟨by decide, by decide, by decide, by decide⟩

/-- Claim C6, amended: for every unit `u` of `supportedUnits` whose
`conversions[u]` entry is truthy (not merely existing), the self loop
emits no error for `u` exactly when `conversions[u][u]` strictly equals
the number `1`, and for any other value it emits an error citing that
value, which lands in the matrix error list. -/
theorem C6_selfConversion (c u : JSVal) (us : List JSVal)
    (hu : jsGet c "supportedUnits" = some (.arr us)) (hmem : u ∈ us)
    (htr : jsTruthy (jsIndex (conversionsObjOf c) (jsKey u)) = true) :
    (jsStrictEqOne (jsIndexO (jsIndex (conversionsObjOf c) (jsKey u)) (jsKey u)) = true →
       selfConvError (conversionsObjOf c) u = none) ∧
    (jsStrictEqOne (jsIndexO (jsIndex (conversionsObjOf c) (jsKey u)) (jsKey u)) = false →
       selfConvError (conversionsObjOf c) u =
         some ("Self-conversion for \"" ++ jsKey u ++ "\" must be 1 (got: " ++
               jsOptToString (jsIndexO (jsIndex (conversionsObjOf c) (jsKey u)) (jsKey u)) ++ ")") ∧
       ("Self-conversion for \"" ++ jsKey u ++ "\" must be 1 (got: " ++
        jsOptToString (jsIndexO (jsIndex (conversionsObjOf c) (jsKey u)) (jsKey u)) ++ ")") ∈
         validateConversionMatrix c) := by
  constructor
  · intro heq
    unfold selfConvError
    simp [htr, heq]
  · intro hne
    have hself : selfConvError (conversionsObjOf c) u =
        some ("Self-conversion for \"" ++ jsKey u ++ "\" must be 1 (got: " ++
              jsOptToString (jsIndexO (jsIndex (conversionsObjOf c) (jsKey u)) (jsKey u)) ++ ")") := by
      unfold selfConvError
      simp [htr, hne]
    refine ⟨hself, ?_⟩
    unfold validateConversionMatrix
    have hus : supportedUnitsOf c = us := by unfold supportedUnitsOf; rw [hu]
    rw [hus]
    rw [if_neg (fun hlen => (List.ne_nil_of_mem hmem) (List.length_eq_zero.mp hlen))]
    refine List.mem_append.mpr (Or.inr ?_)
    exact List.mem_filterMap.mpr ⟨u, hmem, hself⟩

/-- A record whose self-conversion factor for `u` is `0.999999`. -/
def C6rec : JSVal := .obj [
  ("supportedUnits", .arr [.str "u"]),
  ("conversions", .obj [("u", .obj [("u", .num ⟨999999, 6⟩)])])]

/-- Claim C6 witness: `C6_selfConversion` applied to the `0.999999`
record (the emitted error cites the offending value), plus the
exact-one case on a record with self factor `1`, where the self loop
emits nothing. -/
theorem C6_selfConversion_witness :
    jsTruthy (jsIndex (conversionsObjOf C6rec) (jsKey (.str "u"))) = true ∧
    jsStrictEqOne (jsIndexO (jsIndex (conversionsObjOf C6rec) (jsKey (.str "u")))
      (jsKey (.str "u"))) = false ∧
    (selfConvError (conversionsObjOf C6rec) (.str "u") =
       some "Self-conversion for \"u\" must be 1 (got: 0.999999)" ∧
     "Self-conversion for \"u\" must be 1 (got: 0.999999)" ∈
       validateConversionMatrix C6rec) ∧
    selfConvError (conversionsObjOf GOODrec) (.str "g") = none :=
  ⟨by decide, by decide,
   (C6_selfConversion C6rec (.str "u") [.str "u"] rfl (.head _) (by decide)).2 (by decide),
   by decide⟩

/-!
## Claim C7 — content-sequence cross-check
-/

theorem jsKey_str (s : String) : jsKey (.str s) = s := by
  simp [jsKey, jsValToString]

/-- Claim C7: with `contentSections` an object and `contentSequence` an
array, every string section name in the sequence outside the special set
with no matching `contentSections` key yields the not-found error; the
per-element check returns nothing for names in the special set; and
`hero` is not special, so it is checked like any other name. -/
theorem C7_crossCheck (c : JSVal) (sections : List (String × JSVal)) (seq : List JSVal)
    (errs : List String) (wc : Nat) (name m : String)
    (h : validateSingleConverter c = .ok (errs, wc))
    (hcs : jsGet c "contentSections" = some (.obj sections))
    (hseq : jsGet c "contentSequence" = some (.arr seq)) :
    ((.str name) ∈ seq → ¬ name ∈ SPECIAL_SECTIONS → jsLookup sections name = none →
       ("Section \"" ++ name ++ "\" in contentSequence not found in contentSections") ∈ errs) ∧
    (m ∈ SPECIAL_SECTIONS → crossSeqCheck (.obj sections) (.str m) = none) ∧
    ¬ "hero" ∈ SPECIAL_SECTIONS := by
  obtain ⟨e7, e10, h7, h10, hw, herrs⟩ := validateSingleConverter_ok h
  subst herrs
  refine ⟨?_, ?_, by decide⟩
  · intro hmemseq hnsp hlook
    unfold contentSectionsErrorsE at h7
    rw [hcs] at h7
    simp only [jsTruthyV, jsIsObjectType, Bool.and_self, if_true] at h7
    unfold crossSeqErrorsE at h7
    rw [hseq] at h7
    simp only [jsTruthyV, if_true, bind, Except.bind, Except.ok.injEq, jsEntries] at h7
    have hcheck : crossSeqCheck (.obj sections) (.str name) =
        some ("Section \"" ++ name ++ "\" in contentSequence not found in contentSections") := by
      unfold crossSeqCheck
      have hc1 : (SPECIAL_SECTIONS.contains name) = false := by
        simpa [List.contains, List.elem_eq_mem] using hnsp
      rw [jsKey_str]
      simp only [hc1, Bool.false_eq_true, if_false]
      simp [jsIndex, hlook, jsTruthy]
    have hmem7 : ("Section \"" ++ name ++ "\" in contentSequence not found in contentSections")
        ∈ e7 := by
      rw [← h7]
      exact List.mem_append.mpr (Or.inl (List.mem_filterMap.mpr ⟨.str name, hmemseq, hcheck⟩))
    simp [List.mem_append, hmem7]
  · intro hsp
    unfold crossSeqCheck
    have hc1 : (SPECIAL_SECTIONS.contains m) = true := by
      simpa [List.contains, List.elem_eq_mem] using hsp
    have hc2 : (match JSVal.str m with
      | .str s => SPECIAL_SECTIONS.contains s
      | _ => false) = true := hc1
    rw [hc2]
    simp

/-- Record for the C7 witness: the sequence names `hero` and `faq`, but
`contentSections` is empty. -/
def C7record : JSVal := .obj [
  ("contentSequence", .arr [.str "hero", .str "faq"]),
  ("contentSections", .obj [])]

/-- The full error list `validateSingleConverter` produces on `C7record`:
`hero` (not special) yields the not-found error, `faq` (special) does
not. -/
def C7errors : List String :=
  ["Missing required field: \"id\"", "Missing required field: \"slug\"",
   "Missing required field: \"title\"", "Missing required field: \"description\"",
   "Missing required field: \"keywords\"", "Missing required field: \"categories\"",
   "Missing required field: \"manualRelatedLinks\"", "Missing required field: \"featured\"",
   "Missing required field: \"defaults\"", "Missing required field: \"supportedUnits\"",
   "Missing required field: \"faqs\"",
   "Must have either \"conversions\" object or \"conversionFormulas\" array",
   "Section \"hero\" in contentSequence not found in contentSections",
   "Missing required field: \"defaults\"", "\"supportedUnits\" must be an array",
   "Low content volume: Only 0 words (minimum 1000 words required)"]

/-- Claim C7 witness: `C7_crossCheck` applied to `C7record` with
`name := hero` and `m := faq`. -/
theorem C7_crossCheck_witness :
    validateSingleConverter C7record = .ok (C7errors, 0) ∧
    (("Section \"hero\" in contentSequence not found in contentSections") ∈ C7errors ∧
     crossSeqCheck (.obj []) (.str "faq") = none) ∧
    ¬ ("Section \"faq\" in contentSequence not found in contentSections") ∈ C7errors :=
  ⟨by decide,
   ⟨(C7_crossCheck C7record [] [.str "hero", .str "faq"] C7errors 0 "hero" "faq"
       (by decide) rfl rfl).1 (.head _) (by decide) rfl,
    (C7_crossCheck C7record [] [.str "hero", .str "faq"] C7errors 0 "hero" "faq"
       (by decide) rfl rfl).2.1 (by decide)⟩,
   by decide⟩

/-!
## Claim C8 — word-count determinism and order-independence

`KeyPerm` is the congruence closure of "permute the key/value pairs of an
object": it relates two values exactly when one is obtained from the
other by reordering the fields of arbitrarily nested objects, with the
values themselves unchanged up to the same reordering (array order is
preserved).
-/

inductive KeyPerm : JSVal → JSVal → Prop where
  | refl (v : JSVal) : KeyPerm v v
  | trans {u v w : JSVal} : KeyPerm u v → KeyPerm v w → KeyPerm u w
  | objPerm {fs gs : List (String × JSVal)} : fs.Perm gs → KeyPerm (.obj fs) (.obj gs)
  | arrHead {x y : JSVal} (xs : List JSVal) :
      KeyPerm x y → KeyPerm (.arr (x :: xs)) (.arr (y :: xs))
  | arrTail {xs ys : List JSVal} (x : JSVal) :
      KeyPerm (.arr xs) (.arr ys) → KeyPerm (.arr (x :: xs)) (.arr (x :: ys))
  | objHead {v w : JSVal} (k : String) (fs : List (String × JSVal)) :
      KeyPerm v w → KeyPerm (.obj ((k, v) :: fs)) (.obj ((k, w) :: fs))
  | objTail {fs gs : List (String × JSVal)} (p : String × JSVal) :
      KeyPerm (.obj fs) (.obj gs) → KeyPerm (.obj (p :: fs)) (.obj (p :: gs))

theorem cwFields_eq_sum (fs : List (String × JSVal)) :
    cwFields fs = (fs.map (fun p => cwElem p.2)).sum := by
  induction fs with
  | nil => simp [cwFields]
  | cons p fs ih =>
    obtain ⟨k, v⟩ := p
    rw [cwFields_cons, ih]
    simp

/-- Key permutations preserve truthiness. -/
theorem keyPerm_truthy {u v : JSVal} (h : KeyPerm u v) : jsTruthyV u = jsTruthyV v := by
  induction h with
  | refl v => rfl
  | trans _ _ ih1 ih2 => exact ih1.trans ih2
  | objPerm hp => rfl
  | arrHead xs _ ih => rfl
  | arrTail x _ ih => rfl
  | objHead k fs _ ih => rfl
  | objTail p _ ih => rfl

/-- Key permutations preserve the word-count walk. -/
theorem keyPerm_count {u v : JSVal} (h : KeyPerm u v) :
    cwElem u = cwElem v ∧ countWordsInObject u = countWordsInObject v := by
  induction h with
  | refl v => exact ⟨rfl, rfl⟩
  | trans _ _ ih1 ih2 => exact ⟨ih1.1.trans ih2.1, ih1.2.trans ih2.2⟩
  | @objPerm fs gs hp =>
    have key : countWordsInObject (.obj fs) = countWordsInObject (.obj gs) := by
      rw [countWordsInObject_obj, countWordsInObject_obj, cwFields_eq_sum, cwFields_eq_sum]
      exact (hp.map _).sum_eq
    exact ⟨by simpa [cwElem] using key, key⟩
  | @arrHead x y xs _ ih =>
    have key : countWordsInObject (.arr (x :: xs)) = countWordsInObject (.arr (y :: xs)) := by
      rw [countWordsInObject_arr, countWordsInObject_arr, cwList_cons, cwList_cons, ih.1]
    exact ⟨by simpa [cwElem] using key, key⟩
  | @arrTail xs ys x _ ih =>
    have key : countWordsInObject (.arr (x :: xs)) = countWordsInObject (.arr (x :: ys)) := by
      rw [countWordsInObject_arr, countWordsInObject_arr, cwList_cons, cwList_cons]
      have := ih.2
      rw [countWordsInObject_arr, countWordsInObject_arr] at this
      rw [this]
    exact ⟨by simpa [cwElem] using key, key⟩
  | @objHead v w k fs _ ih =>
    have key : countWordsInObject (.obj ((k, v) :: fs)) =
        countWordsInObject (.obj ((k, w) :: fs)) := by
      rw [countWordsInObject_obj, countWordsInObject_obj, cwFields_cons, cwFields_cons, ih.1]
    exact ⟨by simpa [cwElem] using key, key⟩
  | @objTail fs gs p _ ih =>
    have key : countWordsInObject (.obj (p :: fs)) = countWordsInObject (.obj (p :: gs)) := by
      obtain ⟨k, v⟩ := p
      rw [countWordsInObject_obj, countWordsInObject_obj, cwFields_cons, cwFields_cons]
      have := ih.2
      rw [countWordsInObject_obj, countWordsInObject_obj] at this
      rw [this]
    exact ⟨by simpa [cwElem] using key, key⟩

/-!
Spec-side word count.  Modelled from the spec wording: "split every string
value of `title`, `description`, and all string leaves reachable by
recursively walking `contentSections` (arrays recursed element-wise,
objects recursed value-wise, non-string/non-object leaves ignored), plus
every `faqs[].question` and `faqs[].answer`, on runs of whitespace,
counting non-empty tokens".  Compared with `calculateWordCount` below.
-/

mutual

/-- Words in the string leaves reachable by recursively walking a value. -/
def specLeafWords : JSVal → Nat
  | .arr xs => specLeafWordsList xs
  | .obj fs => specLeafWordsFields fs
  | _ => 0

def specLeafWordsList : List JSVal → Nat
  | [] => 0
  | v :: vs =>
    (match v with
     | .str s => countTokens s
     | .arr ys => specLeafWords (.arr ys)
     | .obj gs => specLeafWords (.obj gs)
     | _ => 0) + specLeafWordsList vs

def specLeafWordsFields : List (String × JSVal) → Nat
  | [] => 0
  | (_, v) :: fs =>
    (match v with
     | .str s => countTokens s
     | .arr ys => specLeafWords (.arr ys)
     | .obj gs => specLeafWords (.obj gs)
     | _ => 0) + specLeafWordsFields fs

end

/-- Words of a possibly-absent string value. -/
def specStrWords : Option JSVal → Nat
  | some (.str s) => countTokens s
  | _ => 0

/-- Words of every `faqs[].question` and `faqs[].answer`. -/
def specFaqWords : List JSVal → Nat
  | [] => 0
  | f :: fs =>
    specStrWords (jsIndex f "question") + specStrWords (jsIndex f "answer") + specFaqWords fs

/-- String-leaf words of the `contentSections` value, when present. -/
def specCSWords : Option JSVal → Nat
  | some v => specLeafWords v
  | none => 0

/-- FAQ words of the `faqs` value, when it is an array. -/
def specFaqsWords : Option JSVal → Nat
  | some (.arr xs) => specFaqWords xs
  | _ => 0

/-- The word count as the spec words it. -/
def wordCountSpec (c : JSVal) : Nat :=
  specStrWords (jsGet c "title") + specStrWords (jsGet c "description") +
  specCSWords (jsGet c "contentSections") + specFaqsWords (jsGet c "faqs")

mutual

theorem cw_eq_specWalk : ∀ (v : JSVal), countWordsInObject v = specLeafWords v
  | .null => by simp [countWordsInObject, specLeafWords]
  | .bool b => by simp [countWordsInObject, specLeafWords]
  | .num n => by simp [countWordsInObject, specLeafWords]
  | .str s => by simp [countWordsInObject, specLeafWords]
  | .arr xs => by
    rw [countWordsInObject_arr]
    rw [show specLeafWords (.arr xs) = specLeafWordsList xs by simp [specLeafWords]]
    exact cwList_eq_spec xs
  | .obj fs => by
    rw [countWordsInObject_obj]
    rw [show specLeafWords (.obj fs) = specLeafWordsFields fs by simp [specLeafWords]]
    exact cwFields_eq_spec fs

theorem cwList_eq_spec : ∀ (xs : List JSVal), cwList xs = specLeafWordsList xs
  | [] => by simp [cwList, specLeafWordsList]
  | .null :: vs => by
    simp only [cwList, specLeafWordsList]
    rw [cwList_eq_spec vs]
  | .bool b :: vs => by
    simp only [cwList, specLeafWordsList]
    rw [cwList_eq_spec vs]
  | .num n :: vs => by
    simp only [cwList, specLeafWordsList]
    rw [cwList_eq_spec vs]
  | .str s :: vs => by
    simp only [cwList, specLeafWordsList]
    rw [cwList_eq_spec vs]
  | .arr ys :: vs => by
    simp only [cwList, specLeafWordsList]
    rw [cwList_eq_spec vs, cw_eq_specWalk (.arr ys)]
  | .obj gs :: vs => by
    simp only [cwList, specLeafWordsList]
    rw [cwList_eq_spec vs, cw_eq_specWalk (.obj gs)]

theorem cwFields_eq_spec : ∀ (fs : List (String × JSVal)),
    cwFields fs = specLeafWordsFields fs
  | [] => by simp [cwFields, specLeafWordsFields]
  | (k, .null) :: fs => by
    simp only [cwFields, specLeafWordsFields]
    rw [cwFields_eq_spec fs]
  | (k, .bool b) :: fs => by
    simp only [cwFields, specLeafWordsFields]
    rw [cwFields_eq_spec fs]
  | (k, .num n) :: fs => by
    simp only [cwFields, specLeafWordsFields]
    rw [cwFields_eq_spec fs]
  | (k, .str s) :: fs => by
    simp only [cwFields, specLeafWordsFields]
    rw [cwFields_eq_spec fs]
  | (k, .arr ys) :: fs => by
    simp only [cwFields, specLeafWordsFields]
    rw [cwFields_eq_spec fs, cw_eq_specWalk (.arr ys)]
  | (k, .obj gs) :: fs => by
    simp only [cwFields, specLeafWordsFields]
    rw [cwFields_eq_spec fs, cw_eq_specWalk (.obj gs)]

end

/-- The truthiness guard around a counted string field is immaterial: an
empty (falsy) string has zero tokens. -/
theorem guard_eq_specStr (o : Option JSVal) :
    (if jsTruthy o then countWordsO o else 0) = specStrWords o := by
  cases o with
  | none => rfl
  | some v =>
    cases v with
    | str s =>
      by_cases hs : s = ""
      · subst hs; simp [jsTruthy, jsTruthyV, specStrWords, countTokens, tokensAux]
      · simp [jsTruthy, jsTruthyV, hs, countWordsO, countWords, specStrWords]
    | null => rfl
    | bool b => cases b <;> simp [jsTruthy, jsTruthyV, countWordsO, countWords, specStrWords]
    | num n =>
      by_cases hn : n.mant = 0 <;>
        simp [jsTruthy, jsTruthyV, hn, countWordsO, countWords, specStrWords]
    | arr xs => simp [jsTruthy, jsTruthyV, countWordsO, countWords, specStrWords]
    | obj fs => simp [jsTruthy, jsTruthyV, countWordsO, countWords, specStrWords]

/-- A falsy value has no string leaves. -/
theorem specLeafWords_falsy {v : JSVal} (h : jsTruthyV v = false) :
    specLeafWords v = 0 := by
  cases v with
  | null => simp [specLeafWords]
  | bool b => simp [specLeafWords]
  | num n => simp [specLeafWords]
  | str s => simp [specLeafWords]
  | arr xs => simp [jsTruthyV] at h
  | obj fs => simp [jsTruthyV] at h

/-- A successful run of the FAQ word loop computes the spec count. -/
theorem faqWordsE_eq_spec : ∀ (xs : List JSVal) (n : Nat),
    faqWordsE xs = .ok n → n = specFaqWords xs := by
  intro xs
  induction xs with
  | nil => intro n hn; simp [faqWordsE] at hn; simp [specFaqWords, hn.symm]
  | cons f fs ih =>
    intro n hn
    unfold faqWordsE at hn
    by_cases hf : f.isNull = true
    · simp [hf] at hn
    · simp only [Bool.not_eq_true] at hf
      simp only [hf, Bool.false_eq_true, if_false] at hn
      cases ht : faqWordsE fs with
      | error e => rw [ht] at hn; simp [bind, Except.bind] at hn
      | ok m =>
        rw [ht] at hn
        simp only [bind, Except.bind, Except.ok.injEq] at hn
        rw [← hn]
        unfold specFaqWords
        rw [ih m ht]
        rw [guard_eq_specStr (jsGet f "question"), guard_eq_specStr (jsGet f "answer")]
        rfl

/-- A successful `calculateWordCount` computes exactly the spec count. -/
theorem calculateWordCount_eq_spec (c : JSVal) (n : Nat)
    (h : calculateWordCount c = .ok n) : n = wordCountSpec c := by
  unfold calculateWordCount at h
  have hcs : (match jsGet c "contentSections" with
      | some v => if jsTruthyV v = true then countWordsInObject v else 0
      | none => 0) = specCSWords (jsGet c "contentSections") := by
    cases hx : jsGet c "contentSections" with
    | none => simp [specCSWords]
    | some v =>
      by_cases hv : jsTruthyV v = true
      · simp [hv, specCSWords, cw_eq_specWalk v]
      · simp only [Bool.not_eq_true] at hv
        simp [hv, specCSWords, specLeafWords_falsy hv]
  unfold wordCountSpec
  rw [← guard_eq_specStr (jsGet c "title"), ← guard_eq_specStr (jsGet c "description"), ← hcs]
  cases h64 : jsGet c "faqs" with
  | none =>
    rw [h64] at h
    dsimp only at h
    simp only [Except.ok.injEq] at h
    simp [specFaqsWords, ← h]
  | some v =>
    rw [h64] at h
    cases v with
    | arr xs =>
      dsimp only at h
      cases hfa : faqWordsE xs with
      | error e => rw [hfa] at h; simp [Except.map] at h
      | ok m =>
        rw [hfa] at h
        simp only [Except.map, Except.ok.injEq] at h
        rw [faqWordsE_eq_spec xs m hfa] at h
        simp [specFaqsWords, ← h]
    | null =>
      dsimp only at h
      simp only [Except.ok.injEq] at h
      simp [specFaqsWords, ← h]
    | bool b =>
      dsimp only at h
      simp only [Except.ok.injEq] at h
      simp [specFaqsWords, ← h]
    | num nn =>
      dsimp only at h
      simp only [Except.ok.injEq] at h
      simp [specFaqsWords, ← h]
    | str s =>
      dsimp only at h
      simp only [Except.ok.injEq] at h
      simp [specFaqsWords, ← h]
    | obj fs =>
      dsimp only at h
      simp only [Except.ok.injEq] at h
      simp [specFaqsWords, ← h]

theorem jsLookup_none_of_not_mem : ∀ (fs : List (String × JSVal)) (k : String),
    ¬ k ∈ fs.map Prod.fst → jsLookup fs k = none := by
  intro fs
  induction fs with
  | nil => intro k _; rfl
  | cons p rest ih =>
    intro k hk
    obtain ⟨k2, v⟩ := p
    simp only [List.map_cons, List.mem_cons, not_or] at hk
    unfold jsLookup
    rw [if_neg (fun h => hk.1 h.symm)]
    exact ih k hk.2

theorem jsLookup_cons (k2 : String) (v : JSVal) (fs : List (String × JSVal)) (k : String) :
    jsLookup ((k2, v) :: fs) k = if k2 = k then some v else jsLookup fs k := by
  simp [jsLookup]

theorem jsLookup_append : ∀ (l1 l2 : List (String × JSVal)) (k : String),
    jsLookup (l1 ++ l2) k =
      (match jsLookup l1 k with
       | some v => some v
       | none => jsLookup l2 k) := by
  intro l1
  induction l1 with
  | nil => intro l2 k; rfl
  | cons p rest ih =>
    intro l2 k
    obtain ⟨k2, v⟩ := p
    by_cases hk : k2 = k
    · simp [List.cons_append, jsLookup_cons, hk]
    · simp only [List.cons_append, jsLookup_cons, if_neg hk]
      exact ih l2 k

/-- Congruence for `calculateWordCount` over the four fields it reads. -/
theorem calculateWordCount_congr (a b : JSVal) (csa csb : JSVal)
    (ht : jsGet a "title" = jsGet b "title")
    (hd : jsGet a "description" = jsGet b "description")
    (hf : jsGet a "faqs" = jsGet b "faqs")
    (hcsa : jsGet a "contentSections" = some csa)
    (hcsb : jsGet b "contentSections" = some csb)
    (htr : jsTruthyV csa = jsTruthyV csb)
    (hcw : countWordsInObject csa = countWordsInObject csb) :
    calculateWordCount a = calculateWordCount b := by
  unfold calculateWordCount
  rw [ht, hd, hf, hcsa, hcsb]
  dsimp only
  rw [htr, hcw]

/-- Claim C8: the word count is a deterministic pure function of the
record's string content — replacing `contentSections` by any nested key
permutation of itself (values unchanged) leaves `calculateWordCount`
unchanged, and every successful run returns exactly the spec's token
count over `title`, `description`, the string leaves of
`contentSections`, and every `faqs[].question` / `faqs[].answer`. -/
theorem C8_wordCount (fs1 fs2 : List (String × JSVal)) (cs cs2 : JSVal)
    (hkey : ¬ "contentSections" ∈ fs1.map Prod.fst)
    (hperm : KeyPerm cs cs2) :
    calculateWordCount (.obj (fs1 ++ ("contentSections", cs) :: fs2)) =
      calculateWordCount (.obj (fs1 ++ ("contentSections", cs2) :: fs2)) ∧
    ∀ (c : JSVal) (n : Nat), calculateWordCount c = .ok n → n = wordCountSpec c := by
  constructor
  · have hmid : ∀ (x : JSVal),
        jsGet (.obj (fs1 ++ ("contentSections", x) :: fs2)) "contentSections" = some x := by
      intro x
      show jsLookup (fs1 ++ ("contentSections", x) :: fs2) "contentSections" = some x
      rw [jsLookup_append, jsLookup_none_of_not_mem fs1 _ hkey]
      simp [jsLookup_cons]
    have hoth : ∀ (k : String), ¬ k = "contentSections" →
        jsGet (.obj (fs1 ++ ("contentSections", cs) :: fs2)) k =
        jsGet (.obj (fs1 ++ ("contentSections", cs2) :: fs2)) k := by
      intro k hk
      show jsLookup (fs1 ++ ("contentSections", cs) :: fs2) k =
        jsLookup (fs1 ++ ("contentSections", cs2) :: fs2) k
      rw [jsLookup_append, jsLookup_append]
      cases jsLookup fs1 k with
      | some w => rfl
      | none =>
        have hne : ¬ "contentSections" = k := fun h => hk h.symm
        simp [jsLookup_cons, hne]
    exact calculateWordCount_congr _ _ cs cs2
      (hoth "title" (by decide)) (hoth "description" (by decide)) (hoth "faqs" (by decide))
      (hmid cs) (hmid cs2) (keyPerm_truthy hperm) (keyPerm_count hperm).2
  · exact calculateWordCount_eq_spec

/-- Two key orders of the same two-field section object. -/
def C8cs1 : JSVal := .obj [("a", .str "one two"), ("b", .str "three")]

def C8cs2 : JSVal := .obj [("b", .str "three"), ("a", .str "one two")]

/-- Claim C8 witness: `C8_wordCount` applied to a concrete key swap of
`contentSections` and, for the refinement half, to `GOODrec`. -/
theorem C8_wordCount_witness :
    calculateWordCount (.obj [("contentSections", C8cs1)]) =
      calculateWordCount (.obj [("contentSections", C8cs2)]) ∧
    (calculateWordCount GOODrec = .ok 10 ∧ 10 = wordCountSpec GOODrec) :=
  have h := C8_wordCount [] [] C8cs1 C8cs2 (by simp)
    (.objPerm (List.Perm.swap _ _ _))
  ⟨h.1, by decide, h.2 GOODrec 10 (by decide)⟩

/-!
## Claim C9 — the `wordCounts` key is the raw `id`
-/

/-- First id-less record of the collision pair (word count 2). -/
def C9recA : JSVal := .obj [("title", .str "a b")]

/-- Second id-less record of the collision pair (word count 4). -/
def C9recB : JSVal := .obj [("title", .str "a b c d")]

/-- Claim C9: the `wordCounts` map is keyed by the raw `id` (an absent id
produces the property key `undefined`), while `failedIds` uses the
positional `converter-N` placeholder; hence two id-less records in one
run collide on the single key `undefined` and the second overwrites the
first. -/
theorem C9_wordCountsKey (c : JSVal) (errs : List String) (wc : Nat)
    (h : validateSingleConverter c = .ok (errs, wc))
    (hn : c.isNull = false)
    (hid : jsGet c "id" = none) :
    ((validateConverters [c]).map (fun r => (r.wordCounts, r.failedIds)) =
       .ok ([("undefined", wc)], if errs.length = 0 then [] else ["converter-0"])) ∧
    ((validateConverters [C9recA, C9recB]).map (fun r => (r.wordCounts, r.failedIds)) =
       .ok ([("undefined", 4)], ["converter-0", "converter-1"])) := by
  constructor
  · have haux : validateConvertersAux [c] 0 [] [] =
        .ok ((if errs.length = 0 then [] else ["converter-0"]), [("undefined", wc)]) := by
      unfold validateConvertersAux
      rw [if_neg (by simp [hn])]
      rw [h]
      simp only [bind, Except.bind]
      unfold validateConvertersAux
      rw [hid]
      simp [converterIdOf, hid, jsTruthy, jsOptToString, upsertWordCount]
      rw [show ("converter-" ++ natToStr 0) = "converter-0" from rfl]
    unfold validateConverters
    rw [haux]
    simp [Except.map]
  · decide

/-- Claim C9 witness: `C9_wordCountsKey` applied to the id-less
`C3record`, whose word count is stored under the key `undefined` while
its `failedIds` entry is the placeholder `converter-0`. -/
theorem C9_wordCountsKey_witness :
    validateSingleConverter C3record = .ok (C3errors, 3) ∧
    jsGet C3record "id" = none ∧
    (validateConverters [C3record]).map (fun r => (r.wordCounts, r.failedIds)) =
      .ok ([("undefined", 3)], if C3errors.length = 0 then [] else ["converter-0"]) :=
  ⟨by decide, rfl, (C9_wordCountsKey C3record C3errors 3 (by decide) (by decide) rfl).1⟩

/-!
## Claim C10 — an empty top-level `faqs` array
-/

/-- Claim C10: a present-but-empty `faqs` array yields the
cannot-be-empty error in the record's error list, and
`validateTopLevelFAQs` returns exactly that one error, skipping the
per-element question/answer checks. -/
theorem C10_emptyFaqs (c : JSVal) (errs : List String) (wc : Nat)
    (h : validateSingleConverter c = .ok (errs, wc))
    (hf : jsGet c "faqs" = some (.arr [])) :
    "\"faqs\" array cannot be empty" ∈ errs ∧
    validateTopLevelFAQs (.arr []) = .ok ["\"faqs\" array cannot be empty"] := by
  obtain ⟨e7, e10, h7, h10, hw, herrs⟩ := validateSingleConverter_ok h
  subst herrs
  refine ⟨?_, rfl⟩
  have he10 : e10 = ["\"faqs\" array cannot be empty"] := by
    unfold faqsStepE at h10
    rw [hf] at h10
    simp only [jsTruthyV, if_true] at h10
    have : validateTopLevelFAQs (.arr []) = .ok ["\"faqs\" array cannot be empty"] := rfl
    rw [this] at h10
    simpa using h10.symm
  subst he10
  simp [List.mem_append]

/-- A record whose only field is an empty `faqs` array. -/
def C10record : JSVal := .obj [("faqs", .arr [])]

/-- The full error list `validateSingleConverter` produces on
`C10record`. -/
def C10errors : List String :=
  ["Missing required field: \"id\"", "Missing required field: \"slug\"",
   "Missing required field: \"title\"", "Missing required field: \"description\"",
   "Missing required field: \"keywords\"", "Missing required field: \"categories\"",
   "Missing required field: \"manualRelatedLinks\"", "Missing required field: \"featured\"",
   "Missing required field: \"contentSequence\"", "Missing required field: \"defaults\"",
   "Missing required field: \"supportedUnits\"", "Missing required field: \"contentSections\"",
   "Must have either \"conversions\" object or \"conversionFormulas\" array",
   "\"contentSequence\" must be an array",
   "\"contentSections\" must be an object", "Missing required field: \"defaults\"",
   "\"supportedUnits\" must be an array", "\"faqs\" array cannot be empty",
   "Low content volume: Only 0 words (minimum 1000 words required)"]

/-- Claim C10 witness: `C10_emptyFaqs` applied to `C10record`. -/
theorem C10_emptyFaqs_witness :
    validateSingleConverter C10record = .ok (C10errors, 0) ∧
    ("\"faqs\" array cannot be empty" ∈ C10errors ∧
     validateTopLevelFAQs (.arr []) = .ok ["\"faqs\" array cannot be empty"]) :=
  ⟨by decide, C10_emptyFaqs C10record C10errors 0 (by decide) rfl⟩
